import Mathlib

/-!
Verification development for the staffing-credentialing command center's
eligibility, gap-classification and scenario-simulation engine.

The repository ships the frontend (TypeScript, zod schemas under
`app/frontend/src/api/types.ts`) but the FastAPI backend that implements the
engine (`app/backend`) is not part of the available sources.  Definitions of
the engine below are therefore modelled from the specification (spec.md §4),
while the schema-level definitions (request validation, Provider360 parsing
defaults) are translated from the zod schemas present in the sources.
-/

namespace StaffingCC

/-- Modelled from the spec: the fixed blocker vocabulary of §3, in declaration
order `STATUS_INACTIVE, LICENSE_EXPIRED, LICENSE_EXPIRING, ACLS_EXPIRED,
ACLS_EXPIRING, NO_PRIVILEGE, NO_PAYER_ENROLLMENT`. -/
inductive Blocker where
  | STATUS_INACTIVE
  | LICENSE_EXPIRED
  | LICENSE_EXPIRING
  | ACLS_EXPIRED
  | ACLS_EXPIRING
  | NO_PRIVILEGE
  | NO_PAYER_ENROLLMENT
  deriving DecidableEq, Repr

/-- Human-readable tag of a blocker, as rendered into `why_not`. -/
def Blocker.tag : Blocker → String
  | .STATUS_INACTIVE => "STATUS_INACTIVE"
  | .LICENSE_EXPIRED => "LICENSE_EXPIRED"
  | .LICENSE_EXPIRING => "LICENSE_EXPIRING"
  | .ACLS_EXPIRED => "ACLS_EXPIRED"
  | .ACLS_EXPIRING => "ACLS_EXPIRING"
  | .NO_PRIVILEGE => "NO_PRIVILEGE"
  | .NO_PAYER_ENROLLMENT => "NO_PAYER_ENROLLMENT"

/-- Per-provider fact sheet (spec §3 ProviderFactSheet; field names follow
`ProviderBlockersRowSchema` in the sources).  Days-left fields are nullable,
count fields are plain numbers after schema parsing. -/
structure ProviderFactSheet where
  provider_id : String
  provider_status : String
  state_license_status : Option String
  state_license_days_left : Option Int
  acls_status : Option String
  acls_days_left : Option Int
  active_privilege_count : Int
  active_privilege_facility_count : Int
  active_payer_count : Int
  deriving DecidableEq, Repr

/-- Per-provider override flags derived from ScenarioAssumptions
(spec §4.2): each flag independently marks one blocker class resolved. -/
structure ScenarioOverrides where
  fixAcls : Bool
  fixLicense : Bool
  assumePrivilege : Bool
  assumePayer : Bool
  deriving DecidableEq, Repr

/-- Baseline evaluation: no override flag set. -/
def noOverrides : ScenarioOverrides :=
  { fixAcls := false, fixLicense := false
    assumePrivilege := false, assumePayer := false }

/-- True when an optional days-left value is a number and at most `k`. -/
def daysAtMost (days : Option Int) (k : Int) : Bool :=
  match days with
  | some d => d ≤ k
  | none => false

/-- Modelled from the spec: rule shape shared by license and ACLS checks
(spec §4.2 rules 2 and 3): EXPIRED when status is "EXPIRED" or days-left is a
number ≤ 0; else EXPIRING when days-left is a number ≤ 30. -/
def credBlockers (expiredTag expiringTag : Blocker)
    (st : Option String) (days : Option Int) : List Blocker :=
  if st == some "EXPIRED" || daysAtMost days 0 then [expiredTag]
  else if daysAtMost days 30 then [expiringTag]
  else []

/-- Modelled from the spec: rule 1 of §4.2, `STATUS_INACTIVE` when provider
status is not ACTIVE. -/
def statusBlockers (fs : ProviderFactSheet) : List Blocker :=
  if fs.provider_status ≠ "ACTIVE" then [.STATUS_INACTIVE] else []

/-- Modelled from the spec: rule 2 of §4.2, applied to the state license. -/
def licenseBlockers (fs : ProviderFactSheet) : List Blocker :=
  credBlockers .LICENSE_EXPIRED .LICENSE_EXPIRING
    fs.state_license_status fs.state_license_days_left

/-- Modelled from the spec: rule 3 of §4.2, applied to ACLS. -/
def aclsBlockers (fs : ProviderFactSheet) : List Blocker :=
  credBlockers .ACLS_EXPIRED .ACLS_EXPIRING fs.acls_status fs.acls_days_left

/-- Modelled from the spec: rule 4 of §4.2, `NO_PRIVILEGE` when the active
privilege count is zero. -/
def privilegeBlockers (fs : ProviderFactSheet) : List Blocker :=
  if fs.active_privilege_count = 0 then [.NO_PRIVILEGE] else []

/-- Modelled from the spec: rule 5 of §4.2, `NO_PAYER_ENROLLMENT` when the
active payer-enrollment count is zero. -/
def payerBlockers (fs : ProviderFactSheet) : List Blocker :=
  if fs.active_payer_count = 0 then [.NO_PAYER_ENROLLMENT] else []

/-- Modelled from the spec: BlockerEvaluator (§4.2).  The five rules are
evaluated in fixed order and concatenated; an override flag suppresses its
rule entirely, while rule 1 (`STATUS_INACTIVE`) has no override. -/
def evalBlockers (fs : ProviderFactSheet) (ov : ScenarioOverrides) : List Blocker :=
  statusBlockers fs
    ++ (if ov.fixLicense then [] else licenseBlockers fs)
    ++ (if ov.fixAcls then [] else aclsBlockers fs)
    ++ (if ov.assumePrivilege then [] else privilegeBlockers fs)
    ++ (if ov.assumePayer then [] else payerBlockers fs)

/-- Largest configured lead time over a blocker list (0 for the empty list);
`none` as soon as one blocker kind has no configured lead time. -/
def maxLead (cfg : Blocker → Option Nat) : List Blocker → Option Nat
  | [] => some 0
  | b :: rest =>
      match cfg b, maxLead cfg rest with
      | some t, some m => some (max t m)
      | _, _ => none

/-- Modelled from the spec: TimeToReadyEstimator (§4.3): `none` on an empty
BlockerSet; otherwise the maximum configured lead time, or `none` when any
present blocker kind has no configured lead time. -/
def timeToReady (cfg : Blocker → Option Nat) (bs : List Blocker) : Option Nat :=
  match bs with
  | [] => none
  | _ :: _ => maxLead cfg bs

/-- Modelled from the spec: a concrete remediation-lead-time policy table
(§4.3).  The spec fixes only the ordering (license renewal > ACLS
recertification > privileging > payer enrollment) and that `STATUS_INACTIVE`
is not remediable, so has no configured lead time; numeric values are
configuration. -/
def defaultLeadTime : Blocker → Option Nat
  | .STATUS_INACTIVE => none
  | .LICENSE_EXPIRED => some 60
  | .LICENSE_EXPIRING => some 60
  | .ACLS_EXPIRED => some 30
  | .ACLS_EXPIRING => some 30
  | .NO_PRIVILEGE => some 21
  | .NO_PAYER_ENROLLMENT => some 14

/-- EligibilityResult (spec §3). -/
structure EligibilityResult where
  is_eligible : Bool
  why_eligible : List String
  why_not : List String
  time_to_ready_days : Option Nat
  deriving DecidableEq, Repr

/-- Modelled from the spec: EligibilityExplainer (§4.4) composing
BlockerEvaluator and TimeToReadyEstimator. -/
def explain (cfg : Blocker → Option Nat) (fs : ProviderFactSheet)
    (ov : ScenarioOverrides) : EligibilityResult :=
  let bs := evalBlockers fs ov
  { is_eligible := bs.isEmpty
    why_eligible := if bs.isEmpty then ["passes all eligibility rules"] else []
    why_not := bs.map Blocker.tag
    time_to_ready_days := timeToReady cfg bs }

/-- Three-tier staffing risk classification (spec §3, `risk_level`). -/
inductive RiskLevel where
  | LOW
  | MEDIUM
  | HIGH
  deriving DecidableEq, Repr

/-- StaffingGapResult (spec §3; field set of `StaffingGapSchema` restricted to
the classification fields). -/
structure StaffingGapResult where
  required_count : Int
  assigned_count : Int
  eligible_provider_count : Int
  gap_count : Int
  risk_level : RiskLevel
  risk_reason : String
  deriving DecidableEq, Repr

/-- Modelled from the spec: GapClassifier (§4.5).
`gap_count = max(required_count - assigned_count, 0)`; risk is HIGH when
there is a gap and no eligible provider, MEDIUM when there is a gap and
eligible supply is positive but below the gap, LOW otherwise. -/
def classifyGap (required assigned eligible : Int) : StaffingGapResult :=
  let gap : Int := max (required - assigned) 0
  let level : RiskLevel :=
    if gap > 0 ∧ eligible = 0 then .HIGH
    else if gap > 0 ∧ eligible < gap then .MEDIUM
    else .LOW
  { required_count := required
    assigned_count := assigned
    eligible_provider_count := eligible
    gap_count := gap
    risk_level := level
    risk_reason :=
      match level with
      | .HIGH => "no eligible providers"
      | .MEDIUM => "insufficient eligible supply"
      | .LOW => "fully staffed or adequate eligible supply" }

/-- Shift snapshot row (spec §3 Shift, restricted to the headcount fields the
simulator consumes). -/
structure Shift where
  shift_id : String
  required_count : Int
  assigned_count : Int
  deriving DecidableEq, Repr

/-- ScenarioAssumptions (source `ScenarioAssumptionsSchema`): four provider-id
lists, one per remediable blocker class. -/
structure ScenarioAssumptions where
  fix_acls_for_provider_ids : List String
  fix_license_for_provider_ids : List String
  assume_payer_for_provider_ids : List String
  assume_privilege_for_provider_ids : List String
  deriving Repr

/-- Override flags a ScenarioAssumptions induces for one provider id
(spec §4.2: each flag is set when the id appears in the corresponding set). -/
def overridesFor (a : ScenarioAssumptions) (pid : String) : ScenarioOverrides :=
  { fixAcls := a.fix_acls_for_provider_ids.contains pid
    fixLicense := a.fix_license_for_provider_ids.contains pid
    assumePrivilege := a.assume_privilege_for_provider_ids.contains pid
    assumePayer := a.assume_payer_for_provider_ids.contains pid }

/-- Number of providers whose BlockerSet is empty under the given per-provider
overrides (spec §4.5 `eligible_provider_count`). -/
def eligibleCount (providers : List ProviderFactSheet)
    (ovFn : String → ScenarioOverrides) : Nat :=
  providers.countP fun p => (evalBlockers p (ovFn p.provider_id)).isEmpty

/-- Modelled from the spec: a shift is coverable when enough assigned plus
eligible providers exist to meet the required headcount (glossary: a shift
whose gap count is zero once eligible supply is counted). -/
def coverable (required assigned : Int) (elig : Nat) : Bool :=
  decide (max (required - assigned) 0 ≤ (elig : Int))

/-- Modelled from the spec: per-shift simulation outcome
(`ScenarioShiftResultSchema` plus the `NOT_FOUND` marker of §4.7/§7 for shift
ids absent from the snapshot; ranker-related fields are omitted). -/
inductive ScenarioShiftResult where
  | notFound (shift_id : String)
  | found (shift_id : String)
      (baseline_coverable scenario_coverable delta_coverable : Bool)
  deriving DecidableEq, Repr

def ScenarioShiftResult.shiftId : ScenarioShiftResult → String
  | .notFound sid => sid
  | .found sid _ _ _ => sid

def ScenarioShiftResult.baselineCoverable : ScenarioShiftResult → Bool
  | .notFound _ => false
  | .found _ b _ _ => b

def ScenarioShiftResult.scenarioCoverable : ScenarioShiftResult → Bool
  | .notFound _ => false
  | .found _ _ s _ => s

def ScenarioShiftResult.deltaCoverable : ScenarioShiftResult → Bool
  | .notFound _ => false
  | .found _ _ _ d => d

/-- Modelled from the spec: one shift of the simulation batch (§4.7): look
the id up in the shift snapshot, yielding the `NOT_FOUND` marker when absent,
otherwise baseline and scenario coverability and their delta. -/
def simulateShift (providers : List ProviderFactSheet) (shifts : List Shift)
    (a : ScenarioAssumptions) (sid : String) : ScenarioShiftResult :=
  match shifts.find? (fun s => s.shift_id == sid) with
  | none => .notFound sid
  | some s =>
      let eBase := eligibleCount providers (fun _ => noOverrides)
      let eScen := eligibleCount providers (overridesFor a)
      let bc := coverable s.required_count s.assigned_count eBase
      let sc := coverable s.required_count s.assigned_count eScen
      .found sid bc sc (sc && !bc)

/-- Aggregate simulation response (`ScenarioCoverageResponseSchema`). -/
structure ScenarioCoverageResponse where
  shift_count : Nat
  baseline_coverable_count : Nat
  scenario_coverable_count : Nat
  delta_coverable_count : Nat
  results : List ScenarioShiftResult
  deriving Repr

/-- Modelled from the spec: ScenarioSimulator (§4.7): one result entry per
requested shift id, in input order, with summary counts as simple reductions
over the per-shift results. -/
def simulate (providers : List ProviderFactSheet) (shifts : List Shift)
    (shiftIds : List String) (a : ScenarioAssumptions) :
    ScenarioCoverageResponse :=
  let results := shiftIds.map (simulateShift providers shifts a)
  { shift_count := results.length
    baseline_coverable_count := results.countP ScenarioShiftResult.baselineCoverable
    scenario_coverable_count := results.countP ScenarioShiftResult.scenarioCoverable
    delta_coverable_count := results.countP ScenarioShiftResult.deltaCoverable
    results := results }

/-- Validation of the `shift_ids` field of a scenario-coverage request,
translated from the source schema `ScenarioCoverageRequestSchema`:
`z.array(z.string()).min(1).max(200)`. -/
def scenarioRequestShiftIdsValid (shift_ids : List String) : Bool :=
  decide (1 ≤ shift_ids.length) && decide (shift_ids.length ≤ 200)

/-- Raw provider payload at the API boundary, translated from the source
schema `Provider360Schema` (app/frontend/src/api/types.ts): `none` stands for
an absent optional field.  The three count fields are declared
`z.number().default(0)`; the license and ACLS fields are
`.nullable().optional()`. -/
structure RawProvider360 where
  provider_id : String
  provider_status : String
  state_license_status : Option String
  state_license_days_left : Option Int
  acls_status : Option String
  acls_days_left : Option Int
  active_privilege_count : Option Int
  active_privilege_facility_count : Option Int
  active_payer_count : Option Int
  deriving DecidableEq, Repr

/-- Parsing a raw provider payload (source `Provider360Schema`): the
`.default(0)` count fields substitute 0 when absent, the
`.nullable().optional()` license and ACLS fields are preserved as-is. -/
def parseProvider360 (raw : RawProvider360) : ProviderFactSheet :=
  { provider_id := raw.provider_id
    provider_status := raw.provider_status
    state_license_status := raw.state_license_status
    state_license_days_left := raw.state_license_days_left
    acls_status := raw.acls_status
    acls_days_left := raw.acls_days_left
    active_privilege_count := raw.active_privilege_count.getD 0
    active_privilege_facility_count := raw.active_privilege_facility_count.getD 0
    active_payer_count := raw.active_payer_count.getD 0 }

/-- The four remediable blocker classes a scenario assumption can address
(spec §3 ScenarioAssumptions). -/
inductive OverrideKind where
  | fixAcls
  | fixLicense
  | assumePrivilege
  | assumePayer
  deriving DecidableEq, Repr

/-- The override record with exactly one assumption flag set. -/
def singleOverride : OverrideKind → ScenarioOverrides
  | .fixAcls => ⟨true, false, false, false⟩
  | .fixLicense => ⟨false, true, false, false⟩
  | .assumePrivilege => ⟨false, false, true, false⟩
  | .assumePayer => ⟨false, false, false, true⟩

/-- Which blockers an override kind suppresses (spec §4.2: fix-license
suppresses rule 2, fix-ACLS rule 3, assume-privilege rule 4, assume-payer
rule 5). -/
def suppressedBy (k : OverrideKind) (b : Blocker) : Bool :=
  match k, b with
  | .fixLicense, .LICENSE_EXPIRED => true
  | .fixLicense, .LICENSE_EXPIRING => true
  | .fixAcls, .ACLS_EXPIRED => true
  | .fixAcls, .ACLS_EXPIRING => true
  | .assumePrivilege, .NO_PRIVILEGE => true
  | .assumePayer, .NO_PAYER_ENROLLMENT => true
  | _, _ => false

/-- Sample provider passing every rule. -/
def sampleEligible : ProviderFactSheet :=
  { provider_id := "PROV-001", provider_status := "ACTIVE"
    state_license_status := some "ACTIVE", state_license_days_left := some 120
    acls_status := some "ACTIVE", acls_days_left := some 90
    active_privilege_count := 2, active_privilege_facility_count := 1
    active_payer_count := 3 }

/-- Sample provider whose only blocker is `STATUS_INACTIVE`. -/
def sampleInactive : ProviderFactSheet :=
  { sampleEligible with provider_id := "PROV-002", provider_status := "INACTIVE" }

/-- Sample provider blocked on license, ACLS, privilege and payer rules. -/
def sampleBlocked : ProviderFactSheet :=
  { provider_id := "PROV-003", provider_status := "ACTIVE"
    state_license_status := some "EXPIRED", state_license_days_left := some (-5)
    acls_status := some "ACTIVE", acls_days_left := some 10
    active_privilege_count := 0, active_privilege_facility_count := 0
    active_payer_count := 0 }

/-- Sample shift snapshot. -/
def sampleShifts : List Shift :=
  [{ shift_id := "SH-1", required_count := 1, assigned_count := 0 },
   { shift_id := "SH-2", required_count := 2, assigned_count := 2 }]

/-- Sample assumptions naming PROV-003 in all four override sets. -/
def sampleAssumptions : ScenarioAssumptions :=
  { fix_acls_for_provider_ids := ["PROV-003"]
    fix_license_for_provider_ids := ["PROV-003"]
    assume_payer_for_provider_ids := ["PROV-003"]
    assume_privilege_for_provider_ids := ["PROV-003"] }

/-- Sample raw provider payload whose count fields are all absent. -/
def sampleRaw : RawProvider360 :=
  { provider_id := "PROV-010", provider_status := "ACTIVE"
    state_license_status := some "ACTIVE", state_license_days_left := some 120
    acls_status := some "ACTIVE", acls_days_left := some 90
    active_privilege_count := none, active_privilege_facility_count := none
    active_payer_count := none }

section Lemmas

lemma mem_credBlockers {b e1 e2 : Blocker} {st : Option String} {d : Option Int}
    (h : b ∈ credBlockers e1 e2 st d) : b = e1 ∨ b = e2 := by
  unfold credBlockers at h
  split_ifs at h <;> simp_all

lemma mem_statusBlockers {b : Blocker} {fs : ProviderFactSheet}
    (h : b ∈ statusBlockers fs) : b = .STATUS_INACTIVE := by
  unfold statusBlockers at h
  split_ifs at h <;> simp_all

lemma mem_privilegeBlockers {b : Blocker} {fs : ProviderFactSheet}
    (h : b ∈ privilegeBlockers fs) : b = .NO_PRIVILEGE := by
  unfold privilegeBlockers at h
  split_ifs at h <;> simp_all

lemma mem_payerBlockers {b : Blocker} {fs : ProviderFactSheet}
    (h : b ∈ payerBlockers fs) : b = .NO_PAYER_ENROLLMENT := by
  unfold payerBlockers at h
  split_ifs at h <;> simp_all

lemma filter_class_keep (k : OverrideKind) (l : List Blocker)
    (h : ∀ b ∈ l, suppressedBy k b = false) :
    l.filter (fun b => !(suppressedBy k b)) = l :=
  List.filter_eq_self.mpr fun b hb => by rw [h b hb]; rfl

lemma filter_class_drop (k : OverrideKind) (l : List Blocker)
    (h : ∀ b ∈ l, suppressedBy k b = true) :
    l.filter (fun b => !(suppressedBy k b)) = [] :=
  List.filter_eq_nil_iff.mpr fun b hb => by rw [h b hb]; simp

lemma maxLead_none_of_mem {cfg : Blocker → Option Nat} {bs : List Blocker}
    {b : Blocker} (hb : b ∈ bs) (hn : cfg b = none) : maxLead cfg bs = none := by
  induction bs with
  | nil => cases hb
  | cons x rest ih =>
      rcases List.mem_cons.mp hb with rfl | hmem
      · cases hrest : maxLead cfg rest <;> simp [maxLead, hn, hrest]
      · cases hcb : cfg x <;> simp [maxLead, hcb, ih hmem]

lemma maxLead_spec {cfg : Blocker → Option Nat} {bs : List Blocker}
    (h : ∀ b ∈ bs, (cfg b).isSome) :
    ∃ m, maxLead cfg bs = some m ∧
      (bs ≠ [] → ∃ b ∈ bs, cfg b = some m) ∧
      ∀ b ∈ bs, ∀ t, cfg b = some t → t ≤ m := by
  induction bs with
  | nil => exact ⟨0, rfl, by simp, by simp⟩
  | cons x rest ih =>
      obtain ⟨t, ht⟩ := Option.isSome_iff_exists.mp (h x (List.mem_cons_self x rest))
      obtain ⟨m, hm, hatt, hub⟩ := ih (fun b hb => h b (List.mem_cons_of_mem _ hb))
      refine ⟨max t m, by simp [maxLead, ht, hm], ?_, ?_⟩
      · intro _
        cases hrest : rest with
        | nil =>
            subst hrest
            simp only [maxLead, Option.some.injEq] at hm
            refine ⟨x, List.mem_cons_self x [], ?_⟩
            rw [← hm, max_eq_left (Nat.zero_le t)]
            exact ht
        | cons y ys =>
            subst hrest
            rcases hatt (by simp) with ⟨b, hbmem, hbt⟩
            rcases Nat.le_total t m with hle | hle
            · exact ⟨b, List.mem_cons_of_mem _ hbmem,
                by rw [hbt, max_eq_right hle]⟩
            · exact ⟨x, List.mem_cons_self x (y :: ys),
                by rw [ht, max_eq_left hle]⟩
      · intro b hb u hu
        rcases List.mem_cons.mp hb with rfl | hmem
        · rw [ht] at hu
          injection hu with he
          subst he
          exact le_max_left t m
        · exact Nat.le_trans (hub b hmem u hu) (le_max_right t m)

lemma evalBlockers_nil_of_base_nil {fs : ProviderFactSheet}
    (h : evalBlockers fs noOverrides = []) (ov : ScenarioOverrides) :
    evalBlockers fs ov = [] := by
  simp [evalBlockers, noOverrides, List.append_eq_nil] at h
  have h1 : statusBlockers fs = [] := by tauto
  have h2 : licenseBlockers fs = [] := by tauto
  have h3 : aclsBlockers fs = [] := by tauto
  have h4 : privilegeBlockers fs = [] := by tauto
  have h5 : payerBlockers fs = [] := by tauto
  simp [evalBlockers, h1, h2, h3, h4, h5]

lemma base_singleton_inactive {fs : ProviderFactSheet}
    (h : evalBlockers fs noOverrides = [Blocker.STATUS_INACTIVE]) :
    statusBlockers fs = [Blocker.STATUS_INACTIVE] ∧ licenseBlockers fs = [] ∧
      aclsBlockers fs = [] ∧ privilegeBlockers fs = [] ∧ payerBlockers fs = [] := by
  simp only [evalBlockers, noOverrides, Bool.false_eq_true, ite_false] at h
  have hst : statusBlockers fs = [] ∨
      statusBlockers fs = [Blocker.STATUS_INACTIVE] := by
    unfold statusBlockers
    split_ifs <;> simp
  rcases hst with hst | hst
  · exfalso
    rw [hst, List.nil_append] at h
    have hm : Blocker.STATUS_INACTIVE ∈
        licenseBlockers fs ++ aclsBlockers fs ++ privilegeBlockers fs ++
          payerBlockers fs := by
      rw [h]; exact List.mem_cons_self _ _
    simp only [List.mem_append] at hm
    rcases hm with ((hm | hm) | hm) | hm
    · rcases mem_credBlockers hm with h' | h' <;> simp_all
    · rcases mem_credBlockers hm with h' | h' <;> simp_all
    · have := mem_privilegeBlockers hm; simp_all
    · have := mem_payerBlockers hm; simp_all
  · rw [hst] at h
    simp only [List.singleton_append, List.cons_append, List.cons.injEq,
      true_and, List.append_eq_nil] at h
    refine ⟨hst, by tauto, by tauto, by tauto, by tauto⟩

lemma eligibleCount_base_le (providers : List ProviderFactSheet)
    (ovFn : String → ScenarioOverrides) :
    eligibleCount providers (fun _ => noOverrides) ≤
      eligibleCount providers ovFn := by
  apply List.countP_mono_left
  intro p _ hp
  simp only [List.isEmpty_eq_true] at hp ⊢
  exact evalBlockers_nil_of_base_nil hp (ovFn p.provider_id)

lemma simulateShift_delta (providers : List ProviderFactSheet)
    (shifts : List Shift) (a : ScenarioAssumptions) (sid : String) :
    (simulateShift providers shifts a sid).deltaCoverable =
      ((simulateShift providers shifts a sid).scenarioCoverable &&
        !(simulateShift providers shifts a sid).baselineCoverable) := by
  unfold simulateShift
  cases shifts.find? (fun s => s.shift_id == sid) <;> rfl

lemma simulateShift_mono (providers : List ProviderFactSheet)
    (shifts : List Shift) (a : ScenarioAssumptions) (sid : String)
    (hb : (simulateShift providers shifts a sid).baselineCoverable = true) :
    (simulateShift providers shifts a sid).scenarioCoverable = true := by
  unfold simulateShift at hb ⊢
  revert hb
  cases hfind : shifts.find? (fun s => s.shift_id == sid) with
  | none =>
      intro hb
      simp [ScenarioShiftResult.baselineCoverable] at hb
  | some s =>
      intro hb
      simp only [ScenarioShiftResult.baselineCoverable] at hb
      simp only [ScenarioShiftResult.scenarioCoverable]
      unfold coverable at hb ⊢
      rw [decide_eq_true_eq] at hb ⊢
      exact le_trans hb
        (Int.ofNat_le.mpr (eligibleCount_base_le providers (overridesFor a)))

end Lemmas

/-- C1: for every provider fact sheet and every override combination, the
EligibilityResult satisfies: `is_eligible` holds iff the BlockerSet is empty;
when eligible, `why_not` is empty and `time_to_ready_days` is null; when not
eligible, `why_not` is non-empty. -/
theorem eligibility_result_invariant (cfg : Blocker → Option Nat)
    (fs : ProviderFactSheet) (ov : ScenarioOverrides) :
    ((explain cfg fs ov).is_eligible = true ↔ evalBlockers fs ov = []) ∧
    ((explain cfg fs ov).is_eligible = true →
      (explain cfg fs ov).why_not = [] ∧
      (explain cfg fs ov).time_to_ready_days = none) ∧
    ((explain cfg fs ov).is_eligible = false →
      (explain cfg fs ov).why_not ≠ []) := by
  cases h : evalBlockers fs ov with
  | nil => simp [explain, h, timeToReady]
  | cons b rest => simp [explain, h]

/-- Witness for C1 at a concrete blocked provider. -/
theorem eligibility_result_invariant_witness :
    (explain defaultLeadTime sampleBlocked noOverrides).why_not ≠ [] :=
  (eligibility_result_invariant defaultLeadTime sampleBlocked noOverrides).2.2
    (by decide)

/-- C2: for non-negative required and assigned counts (including
assigned > required), the classifier's gap count equals
`max(required - assigned, 0)` and is never negative. -/
theorem gap_count_max (required assigned eligible : Int)
    (_hr : 0 ≤ required) (_ha : 0 ≤ assigned) :
    (classifyGap required assigned eligible).gap_count =
      max (required - assigned) 0 ∧
    0 ≤ (classifyGap required assigned eligible).gap_count :=
  ⟨rfl, le_max_right _ _⟩

/-- Witness for C2 with assigned exceeding required. -/
theorem gap_count_max_witness :
    (classifyGap 1 4 0).gap_count = max ((1 : Int) - 4) 0 ∧
    0 ≤ (classifyGap 1 4 0).gap_count :=
  gap_count_max 1 4 0 (by decide) (by decide)

/-- C3: the risk level is exactly HIGH when there is a gap and no eligible
provider, MEDIUM when there is a gap and some but insufficient eligible
supply, and LOW when the gap is zero or eligible supply meets demand. -/
theorem risk_level_cases (required assigned eligible : Int)
    (he : 0 ≤ eligible) :
    ((classifyGap required assigned eligible).risk_level = RiskLevel.HIGH ↔
      0 < (classifyGap required assigned eligible).gap_count ∧ eligible = 0) ∧
    ((classifyGap required assigned eligible).risk_level = RiskLevel.MEDIUM ↔
      0 < (classifyGap required assigned eligible).gap_count ∧ 0 < eligible ∧
        eligible < (classifyGap required assigned eligible).gap_count) ∧
    ((classifyGap required assigned eligible).risk_level = RiskLevel.LOW ↔
      (classifyGap required assigned eligible).gap_count = 0 ∨
        (classifyGap required assigned eligible).gap_count ≤ eligible) := by
  have h0 : (0 : Int) ≤ max (required - assigned) 0 := le_max_right _ _
  simp only [classifyGap]
  generalize hG : max (required - assigned) 0 = g at h0 ⊢
  split_ifs with h1 h2 <;> refine ⟨?_, ?_, ?_⟩ <;> simp <;> omega

/-- Witness for C3: a shift with a gap and zero eligible providers is HIGH. -/
theorem risk_level_cases_witness :
    (classifyGap 3 1 0).risk_level = RiskLevel.HIGH :=
  ((risk_level_cases 3 1 0 (by decide)).1).mpr (by decide)

/-- C4: a provider whose only blocker under the baseline evaluation is
`STATUS_INACTIVE` stays blocked exactly on `STATUS_INACTIVE` under every
override combination, with `is_eligible = false`,
`why_not = ["STATUS_INACTIVE"]` and `time_to_ready_days = null` (given that
the lead-time policy leaves `STATUS_INACTIVE` unconfigured, as the spec
requires). -/
theorem status_inactive_not_suppressible (cfg : Blocker → Option Nat)
    (fs : ProviderFactSheet) (ov : ScenarioOverrides)
    (hcfg : cfg Blocker.STATUS_INACTIVE = none)
    (hbase : evalBlockers fs noOverrides = [Blocker.STATUS_INACTIVE]) :
    evalBlockers fs ov = [Blocker.STATUS_INACTIVE] ∧
    (explain cfg fs ov).is_eligible = false ∧
    (explain cfg fs ov).why_not = ["STATUS_INACTIVE"] ∧
    (explain cfg fs ov).time_to_ready_days = none := by
  obtain ⟨h1, h2, h3, h4, h5⟩ := base_singleton_inactive hbase
  have hov : evalBlockers fs ov = [Blocker.STATUS_INACTIVE] := by
    simp [evalBlockers, h1, h2, h3, h4, h5]
  refine ⟨hov, ?_, ?_, ?_⟩ <;>
    simp [explain, hov, timeToReady, maxLead, hcfg, Blocker.tag]

/-- Witness for C4: an INACTIVE but otherwise clean provider with all four
overrides set. -/
theorem status_inactive_not_suppressible_witness :
    evalBlockers sampleInactive ⟨true, true, true, true⟩ =
      [Blocker.STATUS_INACTIVE] ∧
    (explain defaultLeadTime sampleInactive ⟨true, true, true, true⟩).is_eligible
      = false ∧
    (explain defaultLeadTime sampleInactive ⟨true, true, true, true⟩).why_not
      = ["STATUS_INACTIVE"] ∧
    (explain defaultLeadTime sampleInactive
      ⟨true, true, true, true⟩).time_to_ready_days = none :=
  status_inactive_not_suppressible defaultLeadTime sampleInactive
    ⟨true, true, true, true⟩ rfl (by decide)

/-- C5: for every lead-time configuration, the time-to-ready estimate is null
on an empty BlockerSet; null as soon as one present blocker kind has no
configured lead time; and otherwise the maximum (not the sum) of the
configured lead times: it is attained by one of the blockers and bounds all of
them. -/
theorem time_to_ready_max_policy (cfg : Blocker → Option Nat)
    (bs : List Blocker) :
    timeToReady cfg [] = none ∧
    ((∃ b ∈ bs, cfg b = none) → timeToReady cfg bs = none) ∧
    (bs ≠ [] → (∀ b ∈ bs, (cfg b).isSome) →
      ∃ m, timeToReady cfg bs = some m ∧
        (∃ b ∈ bs, cfg b = some m) ∧
        ∀ b ∈ bs, ∀ t, cfg b = some t → t ≤ m) := by
  refine ⟨rfl, ?_, ?_⟩
  · rintro ⟨b, hb, hn⟩
    cases bs with
    | nil => cases hb
    | cons x rest => simpa [timeToReady] using maxLead_none_of_mem hb hn
  · intro hne hall
    obtain ⟨m, hm, hatt, hub⟩ := maxLead_spec hall
    cases bs with
    | nil => exact absurd rfl hne
    | cons x rest =>
        exact ⟨m, by simpa [timeToReady] using hm, hatt hne, hub⟩

/-- Witness for C5: ACLS at 30 days dominates payer enrollment at 14 days. -/
theorem time_to_ready_max_policy_witness :
    ∃ m, timeToReady defaultLeadTime
        [Blocker.ACLS_EXPIRED, Blocker.NO_PAYER_ENROLLMENT] = some m ∧
      (∃ b ∈ [Blocker.ACLS_EXPIRED, Blocker.NO_PAYER_ENROLLMENT],
        defaultLeadTime b = some m) ∧
      ∀ b ∈ [Blocker.ACLS_EXPIRED, Blocker.NO_PAYER_ENROLLMENT],
        ∀ t, defaultLeadTime b = some t → t ≤ m :=
  (time_to_ready_max_policy defaultLeadTime
    [Blocker.ACLS_EXPIRED, Blocker.NO_PAYER_ENROLLMENT]).2.2
    (by decide) (by decide)

/-- C6: applying a single override of kind K to a provider yields exactly the
baseline BlockerSet with the K-class blocker(s) removed: all other blockers
are unchanged and none is added. -/
theorem override_removes_exactly_its_class (fs : ProviderFactSheet)
    (k : OverrideKind) :
    evalBlockers fs (singleOverride k) =
      (evalBlockers fs noOverrides).filter
        (fun b => !(suppressedBy k b)) := by
  have hs := filter_class_keep k (statusBlockers fs)
    (fun b hb => by rw [mem_statusBlockers hb]; cases k <;> rfl)
  cases k with
  | fixAcls =>
      have hl := filter_class_keep OverrideKind.fixAcls (licenseBlockers fs)
        (fun b hb => by rcases mem_credBlockers hb with rfl | rfl <;> rfl)
      have ha := filter_class_drop OverrideKind.fixAcls (aclsBlockers fs)
        (fun b hb => by rcases mem_credBlockers hb with rfl | rfl <;> rfl)
      have hp := filter_class_keep OverrideKind.fixAcls (privilegeBlockers fs)
        (fun b hb => by rw [mem_privilegeBlockers hb]; rfl)
      have hy := filter_class_keep OverrideKind.fixAcls (payerBlockers fs)
        (fun b hb => by rw [mem_payerBlockers hb]; rfl)
      simp [evalBlockers, singleOverride, noOverrides,
        List.filter_append, hs, hl, ha, hp, hy]
  | fixLicense =>
      have hl := filter_class_drop OverrideKind.fixLicense (licenseBlockers fs)
        (fun b hb => by rcases mem_credBlockers hb with rfl | rfl <;> rfl)
      have ha := filter_class_keep OverrideKind.fixLicense (aclsBlockers fs)
        (fun b hb => by rcases mem_credBlockers hb with rfl | rfl <;> rfl)
      have hp := filter_class_keep OverrideKind.fixLicense (privilegeBlockers fs)
        (fun b hb => by rw [mem_privilegeBlockers hb]; rfl)
      have hy := filter_class_keep OverrideKind.fixLicense (payerBlockers fs)
        (fun b hb => by rw [mem_payerBlockers hb]; rfl)
      simp [evalBlockers, singleOverride, noOverrides,
        List.filter_append, hs, hl, ha, hp, hy]
  | assumePrivilege =>
      have hl := filter_class_keep OverrideKind.assumePrivilege
        (licenseBlockers fs)
        (fun b hb => by rcases mem_credBlockers hb with rfl | rfl <;> rfl)
      have ha := filter_class_keep OverrideKind.assumePrivilege
        (aclsBlockers fs)
        (fun b hb => by rcases mem_credBlockers hb with rfl | rfl <;> rfl)
      have hp := filter_class_drop OverrideKind.assumePrivilege
        (privilegeBlockers fs)
        (fun b hb => by rw [mem_privilegeBlockers hb]; rfl)
      have hy := filter_class_keep OverrideKind.assumePrivilege
        (payerBlockers fs)
        (fun b hb => by rw [mem_payerBlockers hb]; rfl)
      simp [evalBlockers, singleOverride, noOverrides,
        List.filter_append, hs, hl, ha, hp, hy]
  | assumePayer =>
      have hl := filter_class_keep OverrideKind.assumePayer (licenseBlockers fs)
        (fun b hb => by rcases mem_credBlockers hb with rfl | rfl <;> rfl)
      have ha := filter_class_keep OverrideKind.assumePayer (aclsBlockers fs)
        (fun b hb => by rcases mem_credBlockers hb with rfl | rfl <;> rfl)
      have hp := filter_class_keep OverrideKind.assumePayer
        (privilegeBlockers fs)
        (fun b hb => by rw [mem_privilegeBlockers hb]; rfl)
      have hy := filter_class_drop OverrideKind.assumePayer (payerBlockers fs)
        (fun b hb => by rw [mem_payerBlockers hb]; rfl)
      simp [evalBlockers, singleOverride, noOverrides,
        List.filter_append, hs, hl, ha, hp, hy]

/-- C7: in every simulate call, each per-shift `delta_coverable` equals
`scenario_coverable and not baseline_coverable`, and the scenario coverable
count is at least the baseline coverable count — overrides never make a
baseline-coverable shift uncoverable. -/
theorem scenario_delta_and_monotone (providers : List ProviderFactSheet)
    (shifts : List Shift) (ids : List String) (a : ScenarioAssumptions) :
    (∀ r ∈ (simulate providers shifts ids a).results,
      r.deltaCoverable = (r.scenarioCoverable && !r.baselineCoverable)) ∧
    (simulate providers shifts ids a).baseline_coverable_count ≤
      (simulate providers shifts ids a).scenario_coverable_count := by
  constructor
  · intro r hr
    simp only [simulate, List.mem_map] at hr
    obtain ⟨sid, _, rfl⟩ := hr
    exact simulateShift_delta providers shifts a sid
  · have h : ∀ r ∈ ids.map (simulateShift providers shifts a),
        ScenarioShiftResult.baselineCoverable r →
          ScenarioShiftResult.scenarioCoverable r := by
      intro r hr hb
      obtain ⟨sid, _, rfl⟩ := List.mem_map.mp hr
      exact simulateShift_mono providers shifts a sid hb
    simpa [simulate] using List.countP_mono_left h

/-- Witness for C7 on a concrete batch where the scenario unlocks a shift. -/
theorem scenario_delta_and_monotone_witness :
    (simulate [sampleBlocked] sampleShifts ["SH-404", "SH-1", "SH-2"]
        sampleAssumptions).baseline_coverable_count ≤
      (simulate [sampleBlocked] sampleShifts ["SH-404", "SH-1", "SH-2"]
        sampleAssumptions).scenario_coverable_count :=
  (scenario_delta_and_monotone [sampleBlocked] sampleShifts
    ["SH-404", "SH-1", "SH-2"] sampleAssumptions).2

/-- C8: a simulate call never fails on unknown shift ids: it returns exactly
one result entry per requested id, and every id absent from the shift
snapshot yields a `NOT_FOUND` marker entry instead of a computed result. -/
theorem simulate_not_found_markers (providers : List ProviderFactSheet)
    (shifts : List Shift) (ids : List String) (a : ScenarioAssumptions) :
    (simulate providers shifts ids a).results.length = ids.length ∧
    (simulate providers shifts ids a).shift_count = ids.length ∧
    ∀ sid ∈ ids, shifts.find? (fun s => s.shift_id == sid) = none →
      ScenarioShiftResult.notFound sid ∈
        (simulate providers shifts ids a).results := by
  refine ⟨by simp [simulate], by simp [simulate], ?_⟩
  intro sid hmem hnone
  have heq : simulateShift providers shifts a sid =
      ScenarioShiftResult.notFound sid := by
    unfold simulateShift
    rw [hnone]
  have hin : simulateShift providers shifts a sid ∈
      (simulate providers shifts ids a).results :=
    List.mem_map_of_mem _ hmem
  rwa [heq] at hin

/-- Witness for C8: the unknown id SH-404 in a 3-id batch yields a marker. -/
theorem simulate_not_found_markers_witness :
    ScenarioShiftResult.notFound "SH-404" ∈
      (simulate [sampleBlocked] sampleShifts ["SH-404", "SH-1", "SH-2"]
        sampleAssumptions).results :=
  (simulate_not_found_markers [sampleBlocked] sampleShifts
    ["SH-404", "SH-1", "SH-2"] sampleAssumptions).2.2 "SH-404"
    (by decide) (by decide)

/-- C9: a scenario-coverage request's shift_ids list validates exactly when
its length is between 1 and 200; the empty list and lists over 200 entries
are rejected. -/
theorem scenario_request_bound (ids : List String) :
    scenarioRequestShiftIdsValid ids = true ↔
      1 ≤ ids.length ∧ ids.length ≤ 200 := by
  unfold scenarioRequestShiftIdsValid
  simp [Bool.and_eq_true, decide_eq_true_eq]

/-- Witness for C9: a singleton is accepted; the empty list and a 201-element
list are rejected. -/
theorem scenario_request_bound_witness :
    scenarioRequestShiftIdsValid ["SH-1"] = true ∧
    scenarioRequestShiftIdsValid [] = false ∧
    scenarioRequestShiftIdsValid (List.replicate 201 "SH-X") = false := by
  refine ⟨(scenario_request_bound ["SH-1"]).mpr (by decide), by decide, ?_⟩
  have h := scenario_request_bound (List.replicate 201 "SH-X")
  rw [List.length_replicate] at h
  exact Bool.eq_false_iff.mpr fun hc => absurd (h.mp hc).2 (by decide)

/-- C10: a parsed provider payload always carries numeric privilege and payer
counts: absent count fields become 0 (making an unknown-count provider
indistinguishable from a zero-count one and firing the NO_PRIVILEGE and
NO_PAYER_ENROLLMENT rules), while the license and ACLS fields are preserved
as nullable. -/
theorem provider360_parse_defaults (raw : RawProvider360) :
    ((parseProvider360 raw).state_license_status = raw.state_license_status ∧
     (parseProvider360 raw).state_license_days_left =
       raw.state_license_days_left ∧
     (parseProvider360 raw).acls_status = raw.acls_status ∧
     (parseProvider360 raw).acls_days_left = raw.acls_days_left) ∧
    (raw.active_privilege_count = none →
      (parseProvider360 raw).active_privilege_count = 0 ∧
      parseProvider360 raw =
        parseProvider360 { raw with active_privilege_count := some 0 } ∧
      Blocker.NO_PRIVILEGE ∈
        evalBlockers (parseProvider360 raw) noOverrides) ∧
    (raw.active_privilege_facility_count = none →
      (parseProvider360 raw).active_privilege_facility_count = 0) ∧
    (raw.active_payer_count = none →
      (parseProvider360 raw).active_payer_count = 0 ∧
      parseProvider360 raw =
        parseProvider360 { raw with active_payer_count := some 0 } ∧
      Blocker.NO_PAYER_ENROLLMENT ∈
        evalBlockers (parseProvider360 raw) noOverrides) := by
  refine ⟨⟨rfl, rfl, rfl, rfl⟩, ?_, ?_, ?_⟩
  · intro h
    refine ⟨by simp [parseProvider360, h], by simp [parseProvider360, h], ?_⟩
    have hc : (parseProvider360 raw).active_privilege_count = 0 := by
      simp [parseProvider360, h]
    simp [evalBlockers, noOverrides, privilegeBlockers, hc]
  · intro h
    simp [parseProvider360, h]
  · intro h
    refine ⟨by simp [parseProvider360, h], by simp [parseProvider360, h], ?_⟩
    have hc : (parseProvider360 raw).active_payer_count = 0 := by
      simp [parseProvider360, h]
    simp [evalBlockers, noOverrides, payerBlockers, hc]

/-- Witness for C10 at a payload whose count fields are all absent. -/
theorem provider360_parse_defaults_witness :
    (parseProvider360 sampleRaw).active_payer_count = 0 ∧
    Blocker.NO_PAYER_ENROLLMENT ∈
      evalBlockers (parseProvider360 sampleRaw) noOverrides :=
  ⟨((provider360_parse_defaults sampleRaw).2.2.2 rfl).1,
   ((provider360_parse_defaults sampleRaw).2.2.2 rfl).2.2⟩

end StaffingCC
